import Mathlib

/-!
Shallow embedding of `src/src/lib/contract.ts` (class `CounterContractService`)
from the CounterApp repository, together with theorems settling the frozen
claims about its connection/session management behaviour.

External effects (the injected wallet provider, the chain RPC, contract calls)
are modelled by an explicit environment `Env` that fixes the outcome of each
external operation an execution of `connect()` performs, and by explicit
`Except`-valued call outcomes passed to the other operations.  JavaScript
thrown values are modelled by `JsValue`, which records exactly the features of
a thrown value that the code inspects: whether it is an `instanceof Error`,
whether its `message` contains the substring "already pending", whether its
`message` contains "could not decode result data", and its numeric `code`
property (absent for values without one).
-/

namespace CounterApp

/-- Model of a JavaScript thrown value, restricted to the features
`contract.ts` inspects: `isError` is `err instanceof Error`,
`msgAlreadyPending` is `err.message.includes('already pending')`,
`msgDecodeFail` is `err.message.includes('could not decode result data')`,
and `code` is the numeric `err.code` property (`none` when absent). -/
structure JsValue where
  isError : Bool
  msgAlreadyPending : Bool
  msgDecodeFail : Bool
  code : Option Int
deriving DecidableEq, Repr

/-- Network identity snapshot, as returned by `provider.getNetwork()`:
a human-readable name and a numeric chain identifier
(`Number(network.chainId)`). -/
structure Network where
  name : String
  chainId : Nat
deriving DecidableEq, Repr

/-- The three nullable handle fields of `CounterContractService`
(lines 15-17 of contract.ts).  A handle is modelled as `Option Nat`, the
`Nat` recording the derivation generation: `some 1` for a handle derived at
lines 32-33 (before any chain switch), `some 2` for a handle re-derived at
lines 78-79 (after a switch/add). -/
structure Session where
  contract : Option Nat
  provider : Option Nat
  signer : Option Nat
deriving DecidableEq, Repr

/-- The freshly created service instance (line 204): all three handles null. -/
def Session.empty : Session := ⟨none, none, none⟩

/-- Modelled from the spec: the fixed contract address imported from
`./constants` (constants.ts is not part of the provided sources; the spec
says it is "a fixed, externally configured constant").  Its concrete value is
irrelevant to every claim; it is an opaque fixed string here. -/
def contractAddress : String := "0xCONFIGURED_CONTRACT_ADDRESS"

/-- Line 41: `'0xaa36a7' // 11155111 in hex`. -/
def SEPOLIA_CHAIN_ID : String := "0xaa36a7"

/-- Line 42. -/
def SEPOLIA_CHAIN_ID_DECIMAL : Nat := 11155111

/-- The descriptor passed to `wallet_addEthereumChain` (lines 57-69). -/
structure AddChainParams where
  chainId : String
  chainName : String
  currencyName : String
  currencySymbol : String
  currencyDecimals : Nat
  rpcUrls : List String
  blockExplorerUrls : List String
deriving DecidableEq, Repr

/-- The concrete add-chain descriptor from lines 58-68. -/
def sepoliaAddParams : AddChainParams :=
  { chainId := SEPOLIA_CHAIN_ID
    chainName := "Sepolia"
    currencyName := "ETH"
    currencySymbol := "ETH"
    currencyDecimals := 18
    rpcUrls := ["https://ethereum-sepolia-rpc.publicnode.com"]
    blockExplorerUrls := ["https://sepolia.etherscan.io"] }

/-- Observable external actions performed during `connect()`:
wallet requests issued, handle derivations, network fetches (with the
fetched identity), the byte-code query and contract construction. -/
inductive Event where
  | reqAccounts : Event
  | deriveProvider : Nat → Event
  | deriveSigner : Nat → Event
  | fetchNetwork : Network → Event
  | reqSwitch : String → Event
  | reqAddChain : AddChainParams → Event
  | codeQuery : String → Event
  | mkContract : String → Event
deriving DecidableEq, Repr

/-- A value thrown inside the `try` block of `connect()` (lines 28-106):
either an underlying JavaScript value propagated from a provider/RPC call, or
the internally constructed `Error` of lines 95-97 (contract not deployed),
which carries the configured address and the network identity interpolated
into its message. -/
inductive Thrown where
  | js : JsValue → Thrown
  | contractNotFound : String → Network → Thrown
deriving DecidableEq, Repr

/-- `t instanceof Error` for a value thrown in the `try` block.  The
internally constructed contract-not-found value is a `new Error(...)`. -/
def Thrown.isErrorShaped : Thrown → Bool
  | .js v => v.isError
  | .contractNotFound _ _ => true

/-- `t.message.includes('already pending')` for a value thrown in the `try`
block.  The contract-not-found message is the fixed Korean template of line
95 with the configured address (a fixed hex string) and an ethers network
name interpolated; none of these contain the English phrase
"already pending", so the feature is `false` for it. -/
def Thrown.alreadyPending : Thrown → Bool
  | .js v => v.msgAlreadyPending
  | .contractNotFound _ _ => false

/-- Errors surfaced to the caller of `connect()`.  `notBrowser` and
`metamaskMissing` are the pre-`try` throws of lines 21 and 25;
`connectFailed` is the generic normalization of line 115 for
non-`Error`-shaped failures; the other two are rethrown `try`-block values
(line 113), carried unchanged. -/
inductive ConnError where
  | notBrowser : ConnError
  | metamaskMissing : ConnError
  | connectFailed : ConnError
  | contractNotFound : String → Network → ConnError
  | js : JsValue → ConnError
deriving DecidableEq, Repr

/-- Rethrowing a `try`-block value unchanged at line 113. -/
def Thrown.toConnError : Thrown → ConnError
  | .js v => .js v
  | .contractNotFound a n => .contractNotFound a n

/-- Environment of one `connect()` execution: the outcome of each external
operation, in program order.  `getNetwork1`/`getNetwork2` are the first and
post-switch `provider.getNetwork()` calls; `getSigner1`/`getSigner2` the two
`provider.getSigner()` calls; `getCode` the byte-code query of line 91. -/
structure Env where
  hasWindow : Bool
  hasEthereum : Bool
  reqAccounts : Except JsValue Unit
  getSigner1 : Except JsValue Unit
  getNetwork1 : Except JsValue Network
  switchOutcome : Except JsValue Unit
  addOutcome : Except JsValue Unit
  getSigner2 : Except JsValue Unit
  getNetwork2 : Except JsValue Network
  getCode : Except JsValue String

/-- Lines 90-106: query the byte-code at the configured address; `'0x'`
means not deployed and throws the error of lines 95-97, which interpolates
the STALE `network`/`chainId` bindings from the first fetch (`net0` here);
otherwise construct the contract handle bound to the signer. -/
def finishConnect (env : Env) (s : Session) (net0 : Network) :
    Except Thrown Unit × Session × List Event :=
  match env.getCode with
  | .error e => (.error (.js e), s, [.codeQuery contractAddress])
  | .ok c =>
    if c = "0x" then
      (.error (.contractNotFound contractAddress net0), s, [.codeQuery contractAddress])
    else
      (.ok (), { s with contract := some 1 },
        [.codeQuery contractAddress, .mkContract contractAddress])

/-- Lines 77-88: after a successful switch/add, re-derive the provider and
signer handles (generation 2) and re-fetch the network identity, then fall
through to the byte-code check. -/
def afterSwitch (env : Env) (s : Session) (net0 : Network) :
    Except Thrown Unit × Session × List Event :=
  let s1 : Session := { s with provider := some 2 }
  match env.getSigner2 with
  | .error e => (.error (.js e), s1, [.deriveProvider 2])
  | .ok _ =>
    let s2 : Session := { s1 with signer := some 2 }
    match env.getNetwork2 with
    | .error e => (.error (.js e), s2, [.deriveProvider 2, .deriveSigner 2])
    | .ok n2 =>
      let r := finishConnect env s2 net0
      (r.1, r.2.1,
        Event.deriveProvider 2 :: Event.deriveSigner 2 :: Event.fetchNetwork n2 :: r.2.2)

/-- Lines 46-88: issue `wallet_switchEthereumChain`; on failure with
`code === 4902` issue `wallet_addEthereumChain` with the fixed Sepolia
descriptor; any other switch failure is rethrown (line 73).  On success of
either request, continue with `afterSwitch`. -/
def switchBlock (env : Env) (s : Session) (net0 : Network) :
    Except Thrown Unit × Session × List Event :=
  match env.switchOutcome with
  | .ok _ =>
    let r := afterSwitch env s net0
    (r.1, r.2.1, Event.reqSwitch SEPOLIA_CHAIN_ID :: r.2.2)
  | .error se =>
    if se.code = some 4902 then
      match env.addOutcome with
      | .error e =>
        (.error (.js e), s,
          [.reqSwitch SEPOLIA_CHAIN_ID, .reqAddChain sepoliaAddParams])
      | .ok _ =>
        let r := afterSwitch env s net0
        (r.1, r.2.1,
          Event.reqSwitch SEPOLIA_CHAIN_ID :: Event.reqAddChain sepoliaAddParams :: r.2.2)
    else
      (.error (.js se), s, [.reqSwitch SEPOLIA_CHAIN_ID])

/-- The `try` block of `connect()` (lines 28-106): request accounts, set
`this.provider` (line 32), set `this.signer` (line 33), fetch the network,
switch chains if not on Sepolia, then verify and bind the contract.  Note
that the handle assignments happen eagerly, before later fallible steps. -/
def tryBody (env : Env) (s : Session) : Except Thrown Unit × Session × List Event :=
  match env.reqAccounts with
  | .error e => (.error (.js e), s, [.reqAccounts])
  | .ok _ =>
    let s1 : Session := { s with provider := some 1 }
    match env.getSigner1 with
    | .error e => (.error (.js e), s1, [.reqAccounts, .deriveProvider 1])
    | .ok _ =>
      let s2 : Session := { s1 with signer := some 1 }
      match env.getNetwork1 with
      | .error e => (.error (.js e), s2, [.reqAccounts, .deriveProvider 1, .deriveSigner 1])
      | .ok net0 =>
        let base : List Event :=
          [.reqAccounts, .deriveProvider 1, .deriveSigner 1, .fetchNetwork net0]
        if net0.chainId ≠ SEPOLIA_CHAIN_ID_DECIMAL then
          let r := switchBlock env s2 net0
          (r.1, r.2.1, base ++ r.2.2)
        else
          let r := finishConnect env s2 net0
          (r.1, r.2.1, base ++ r.2.2)

/-- Result of one `connect()` execution: its outcome, the final field state
of the service instance, and the external actions it performed. -/
structure ConnResult where
  outcome : Except ConnError Unit
  session : Session
  events : List Event
deriving Repr

/-- `connect()` (lines 19-117): the pre-`try` environment checks, the `try`
body, and the `catch` of lines 107-116, which treats an `Error` whose
message contains "already pending" as success, rethrows any other `Error`
unchanged, and normalizes non-`Error` values to the generic failure of
line 115. -/
def connect (env : Env) (s : Session) : ConnResult :=
  if env.hasWindow = false then ⟨.error .notBrowser, s, []⟩
  else if env.hasEthereum = false then ⟨.error .metamaskMissing, s, []⟩
  else
    match tryBody env s with
    | (.ok _, s2, log) => ⟨.ok (), s2, log⟩
    | (.error t, s2, log) =>
      if t.isErrorShaped && t.alreadyPending then ⟨.ok (), s2, log⟩
      else if t.isErrorShaped then ⟨.error t.toConnError, s2, log⟩
      else ⟨.error .connectFailed, s2, log⟩

/-- Errors surfaced by the non-`connect` operations: the not-connected guard
throws (lines 120-122, 142-144, 150-152, 158-160, 166-168, 185-187,
192-194), the decode-failure translation (lines 133-135, 178), and
underlying values propagated unchanged. -/
inductive OpError where
  | notConnected : OpError
  | contractRead : OpError
  | js : JsValue → OpError
deriving DecidableEq, Repr

/-- `getCounter()` (lines 119-139): guard on BOTH `this.contract` and
`this.provider`; decode failures are translated, everything else is
rethrown unchanged.  The Boolean records whether the underlying contract
call was performed. -/
def getCounter (s : Session) (call : Except JsValue Nat) :
    Except OpError Nat × Bool :=
  if s.contract.isNone || s.provider.isNone then (.error .notConnected, false)
  else
    match call with
    | .ok v => (.ok v, true)
    | .error e =>
      if e.isError && e.msgDecodeFail then (.error .contractRead, true)
      else (.error (.js e), true)

/-- `incrementCounter()` (lines 141-147): guard on `this.contract` only;
submit the transaction, then await inclusion; both failures propagate
unchanged. -/
def incrementCounter (s : Session) (submit txWait : Except JsValue Unit) :
    Except OpError Unit × Bool :=
  if s.contract.isNone then (.error .notConnected, false)
  else
    match submit with
    | .error e => (.error (.js e), true)
    | .ok _ =>
      match txWait with
      | .error e => (.error (.js e), true)
      | .ok _ => (.ok (), true)

/-- `decrementCounter()` (lines 149-155): same shape as `incrementCounter`. -/
def decrementCounter (s : Session) (submit txWait : Except JsValue Unit) :
    Except OpError Unit × Bool :=
  if s.contract.isNone then (.error .notConnected, false)
  else
    match submit with
    | .error e => (.error (.js e), true)
    | .ok _ =>
      match txWait with
      | .error e => (.error (.js e), true)
      | .ok _ => (.ok (), true)

/-- `resetCounter()` (lines 157-163): same shape as `incrementCounter`. -/
def resetCounter (s : Session) (submit txWait : Except JsValue Unit) :
    Except OpError Unit × Bool :=
  if s.contract.isNone then (.error .notConnected, false)
  else
    match submit with
    | .error e => (.error (.js e), true)
    | .ok _ =>
      match txWait with
      | .error e => (.error (.js e), true)
      | .ok _ => (.ok (), true)

/-- `getOwner()` (lines 165-182): guard on `this.contract` only; same
decode-failure translation as `getCounter`. -/
def getOwner (s : Session) (call : Except JsValue String) :
    Except OpError String × Bool :=
  if s.contract.isNone then (.error .notConnected, false)
  else
    match call with
    | .ok v => (.ok v, true)
    | .error e =>
      if e.isError && e.msgDecodeFail then (.error .contractRead, true)
      else (.error (.js e), true)

/-- `getWalletAddress()` (lines 184-189): guard on `this.signer`. -/
def getWalletAddress (s : Session) (call : Except JsValue String) :
    Except OpError String × Bool :=
  if s.signer.isNone then (.error .notConnected, false)
  else
    match call with
    | .ok v => (.ok v, true)
    | .error e => (.error (.js e), true)

/-- `getNetwork()` (lines 191-196): guard on `this.provider`; the identity
is freshly queried each call. -/
def getNetwork (s : Session) (call : Except JsValue Network) :
    Except OpError Network × Bool :=
  if s.provider.isNone then (.error .notConnected, false)
  else
    match call with
    | .ok v => (.ok v, true)
    | .error e => (.error (.js e), true)

/-- `isConnected()` (lines 198-200): `this.contract !== null`. -/
def isConnected (s : Session) : Bool := s.contract.isSome

/-! ### Helper lemmas: how `connect` treats the contract handle -/

theorem finishConnect_error_contract (env : Env) (s : Session) (net0 : Network) (t : Thrown)
    (h : (finishConnect env s net0).1 = Except.error t) :
    (finishConnect env s net0).2.1.contract = s.contract := by
  unfold finishConnect at h ⊢
  rcases hg : env.getCode with e | c <;> simp [hg] at h ⊢
  by_cases hc : c = "0x" <;> simp [hc] at h ⊢

theorem afterSwitch_error_contract (env : Env) (s : Session) (net0 : Network) (t : Thrown)
    (h : (afterSwitch env s net0).1 = Except.error t) :
    (afterSwitch env s net0).2.1.contract = s.contract := by
  unfold afterSwitch at h ⊢
  rcases h2 : env.getSigner2 with e | u <;> simp [h2] at h ⊢
  rcases h3 : env.getNetwork2 with e | n2 <;> simp [h3] at h ⊢
  exact finishConnect_error_contract env _ net0 t h

theorem switchBlock_error_contract (env : Env) (s : Session) (net0 : Network) (t : Thrown)
    (h : (switchBlock env s net0).1 = Except.error t) :
    (switchBlock env s net0).2.1.contract = s.contract := by
  unfold switchBlock at h ⊢
  rcases hs : env.switchOutcome with se | u
  · simp [hs] at h ⊢
    by_cases hc : se.code = some 4902 <;> simp [hc] at h ⊢
    rcases ha : env.addOutcome with e | u <;> simp [ha] at h ⊢
    exact afterSwitch_error_contract env s net0 t h
  · simp [hs] at h ⊢
    exact afterSwitch_error_contract env s net0 t h

theorem tryBody_error_contract (env : Env) (s : Session) (t : Thrown)
    (h : (tryBody env s).1 = Except.error t) :
    (tryBody env s).2.1.contract = s.contract := by
  unfold tryBody at h ⊢
  rcases h1 : env.reqAccounts with e | u <;> simp [h1] at h ⊢
  rcases h2 : env.getSigner1 with e | u <;> simp [h2] at h ⊢
  rcases h3 : env.getNetwork1 with e | net0 <;> simp [h3] at h ⊢
  by_cases hid : net0.chainId = SEPOLIA_CHAIN_ID_DECIMAL <;> simp [hid] at h ⊢
  · exact finishConnect_error_contract env _ net0 t h
  · exact switchBlock_error_contract env _ net0 t h

theorem finishConnect_contract_cases (env : Env) (s : Session) (net0 : Network) :
    (finishConnect env s net0).2.1.contract = s.contract ∨
      (finishConnect env s net0).2.1.contract = some 1 := by
  unfold finishConnect
  rcases hg : env.getCode with e | c
  · exact Or.inl rfl
  · by_cases hc : c = "0x" <;> simp [hc]

theorem afterSwitch_contract_cases (env : Env) (s : Session) (net0 : Network) :
    (afterSwitch env s net0).2.1.contract = s.contract ∨
      (afterSwitch env s net0).2.1.contract = some 1 := by
  unfold afterSwitch
  rcases h2 : env.getSigner2 with e | u
  · exact Or.inl rfl
  · rcases h3 : env.getNetwork2 with e | n2
    · exact Or.inl rfl
    · simpa using finishConnect_contract_cases env
        { s with provider := some 2, signer := some 2 } net0

theorem switchBlock_contract_cases (env : Env) (s : Session) (net0 : Network) :
    (switchBlock env s net0).2.1.contract = s.contract ∨
      (switchBlock env s net0).2.1.contract = some 1 := by
  unfold switchBlock
  rcases hs : env.switchOutcome with se | u
  · by_cases hc : se.code = some 4902 <;> simp [hc]
    · rcases ha : env.addOutcome with e | u
      · exact Or.inl rfl
      · simpa using afterSwitch_contract_cases env s net0
  · simpa using afterSwitch_contract_cases env s net0

theorem tryBody_contract_cases (env : Env) (s : Session) :
    (tryBody env s).2.1.contract = s.contract ∨
      (tryBody env s).2.1.contract = some 1 := by
  unfold tryBody
  rcases h1 : env.reqAccounts with e | u
  · exact Or.inl rfl
  · rcases h2 : env.getSigner1 with e | u
    · exact Or.inl rfl
    · rcases h3 : env.getNetwork1 with e | net0
      · exact Or.inl rfl
      · by_cases hid : net0.chainId = SEPOLIA_CHAIN_ID_DECIMAL <;> simp [hid]
        · simpa using finishConnect_contract_cases env
            { s with provider := some 1, signer := some 1 } net0
        · simpa using switchBlock_contract_cases env
            { s with provider := some 1, signer := some 1 } net0

theorem connect_contract_cases (env : Env) (s : Session) :
    (connect env s).session.contract = s.contract ∨
      (connect env s).session.contract = some 1 := by
  unfold connect
  by_cases hw : env.hasWindow = false
  · simp [hw]
  · by_cases he : env.hasEthereum = false <;> simp [hw, he]
    rcases ht : tryBody env s with ⟨o, s2, log⟩
    have := tryBody_contract_cases env s
    rw [ht] at this
    rcases o with t | u
    · cases hshape : t.isErrorShaped <;> cases hap : t.alreadyPending <;>
        simp [ht, hshape, hap] <;> simpa using this
    · simp [ht]
      simpa using this

/-- During the `try` block a `mkContract` event is emitted only at the very
end, together with the assignment of the contract handle. -/
theorem finishConnect_mkContract (env : Env) (s : Session) (net0 : Network)
    (h : Event.mkContract contractAddress ∈ (finishConnect env s net0).2.2) :
    (finishConnect env s net0).2.1.contract = some 1 := by
  unfold finishConnect at h ⊢
  rcases hg : env.getCode with e | c <;> simp [hg] at h ⊢
  by_cases hc : c = "0x" <;> simp [hc] at h ⊢

theorem afterSwitch_mkContract (env : Env) (s : Session) (net0 : Network)
    (h : Event.mkContract contractAddress ∈ (afterSwitch env s net0).2.2) :
    (afterSwitch env s net0).2.1.contract = some 1 := by
  unfold afterSwitch at h ⊢
  rcases h2 : env.getSigner2 with e | u <;> simp [h2] at h ⊢
  rcases h3 : env.getNetwork2 with e | n2 <;> simp [h3] at h ⊢
  exact finishConnect_mkContract env _ net0 h

theorem switchBlock_mkContract (env : Env) (s : Session) (net0 : Network)
    (h : Event.mkContract contractAddress ∈ (switchBlock env s net0).2.2) :
    (switchBlock env s net0).2.1.contract = some 1 := by
  unfold switchBlock at h ⊢
  rcases hs : env.switchOutcome with se | u
  · simp [hs] at h ⊢
    by_cases hc : se.code = some 4902 <;> simp [hc] at h ⊢
    rcases ha : env.addOutcome with e | u <;> simp [ha] at h ⊢
    exact afterSwitch_mkContract env s net0 h
  · simp [hs] at h ⊢
    exact afterSwitch_mkContract env s net0 h

theorem tryBody_mkContract (env : Env) (s : Session)
    (h : Event.mkContract contractAddress ∈ (tryBody env s).2.2) :
    (tryBody env s).2.1.contract = some 1 := by
  unfold tryBody at h ⊢
  rcases h1 : env.reqAccounts with e | u <;> simp [h1] at h ⊢
  rcases h2 : env.getSigner1 with e | u <;> simp [h2] at h ⊢
  rcases h3 : env.getNetwork1 with e | net0 <;> simp [h3] at h ⊢
  by_cases hid : net0.chainId = SEPOLIA_CHAIN_ID_DECIMAL <;> simp [hid] at h ⊢
  · exact finishConnect_mkContract env _ net0 h
  · exact switchBlock_mkContract env _ net0 h

/-! ### Concrete sample values used by counterexamples and witnesses -/

/-- A generic `Error` with no relevant message substring and no code. -/
def jsBoom : JsValue := ⟨true, false, false, none⟩

/-- An `Error` whose message contains "already pending". -/
def jsAlreadyPending : JsValue := ⟨true, true, false, none⟩

/-- Environment in which `provider.getSigner()` (line 33) throws after the
provider handle has already been assigned at line 32. -/
def envSignerFails : Env :=
  { hasWindow := true, hasEthereum := true
    reqAccounts := .ok (), getSigner1 := .error jsBoom
    getNetwork1 := .ok ⟨"sepolia", 11155111⟩
    switchOutcome := .ok (), addOutcome := .ok ()
    getSigner2 := .ok (), getNetwork2 := .ok ⟨"sepolia", 11155111⟩
    getCode := .ok "0x6080" }

/-- Environment in which `eth_requestAccounts` throws an `Error` whose
message contains "already pending", before any handle is assigned. -/
def envAlreadyPendingAtAccounts : Env :=
  { hasWindow := true, hasEthereum := true
    reqAccounts := .error jsAlreadyPending
    getSigner1 := .ok (), getNetwork1 := .ok ⟨"sepolia", 11155111⟩
    switchOutcome := .ok (), addOutcome := .ok ()
    getSigner2 := .ok (), getNetwork2 := .ok ⟨"sepolia", 11155111⟩
    getCode := .ok "0x6080" }

/-- Fully successful environment, already on Sepolia, code deployed. -/
def envHappy : Env :=
  { hasWindow := true, hasEthereum := true
    reqAccounts := .ok (), getSigner1 := .ok ()
    getNetwork1 := .ok ⟨"sepolia", 11155111⟩
    switchOutcome := .ok (), addOutcome := .ok ()
    getSigner2 := .ok (), getNetwork2 := .ok ⟨"sepolia", 11155111⟩
    getCode := .ok "0x6080" }

/-! ### Claim C1 -/

/-- Claim C1 as stated is false: when `provider.getSigner()` fails, the
failure (a generic `Error`) is propagated to the caller, yet the Session's
provider handle has already been overwritten at line 32 — it is no longer
what it was (`none`) before the call.  `connect()` is not all-or-nothing. -/
theorem connect_failure_leaves_provider_set :
    (connect envSignerFails Session.empty).outcome = Except.error (ConnError.js jsBoom) ∧
    Session.empty.provider = none ∧
    (connect envSignerFails Session.empty).session.provider = some 1 :=
  ⟨rfl, rfl, rfl⟩

/-- Claim C1 (amended): for every execution of `connect()` in which a step
fails and the failure is propagated to the caller, the CONTRACT handle is
left exactly as it was before the call — but the provider and signer handles
may already have been overwritten, so the Session can be left partially
populated. -/
theorem connect_error_preserves_contract_handle (env : Env) (s : Session) (e : ConnError)
    (h : (connect env s).outcome = Except.error e) :
    (connect env s).session.contract = s.contract := by
  unfold connect at h ⊢
  by_cases hw : env.hasWindow = false
  · simp [hw]
  · by_cases he : env.hasEthereum = false
    · simp [hw, he]
    · simp [hw, he] at h ⊢
      rcases ht : tryBody env s with ⟨o, s2, log⟩
      rcases o with t | u
      · have hc : (tryBody env s).2.1.contract = s.contract :=
          tryBody_error_contract env s t (by rw [ht])
        rw [ht] at hc
        cases hshape : t.isErrorShaped <;> cases hap : t.alreadyPending <;>
          simp [ht, hshape, hap] at h ⊢ <;> simpa using hc
      · simp [ht] at h

/-- Witness for the amended C1 at a concrete failing execution. -/
theorem connect_error_preserves_contract_handle_witness :
    (connect envSignerFails Session.empty).session.contract = Session.empty.contract :=
  connect_error_preserves_contract_handle envSignerFails Session.empty
    (ConnError.js jsBoom) rfl

/-! ### Claim C2 -/

/-- Claim C2 as stated is false: an execution of `connect()` in which
`eth_requestAccounts` throws an "already pending" `Error` COMPLETES
NORMALLY (the catch of lines 110-112 returns), yet `isConnected()` is still
false afterwards — so it is not the case that after any successful
completion of `connect()` the predicate returns true. -/
theorem connect_already_pending_completes_unconnected :
    (connect envAlreadyPendingAtAccounts Session.empty).outcome = Except.ok () ∧
    isConnected (connect envAlreadyPendingAtAccounts Session.empty).session = false :=
  ⟨rfl, rfl⟩

/-- Claim C2 (amended): `isConnected()` is a pure predicate, true iff the
contract handle is populated; it is false on the freshly created Session;
after any successful completion of `connect()` that actually reached
contract construction (rather than returning through the "already pending"
catch) it returns true; and no operation ever sets it back to false
(`connect` only upgrades the contract handle, never clears it). -/
theorem isConnected_characterization :
    (∀ s : Session, isConnected s = true ↔ s.contract ≠ none) ∧
    isConnected Session.empty = false ∧
    (∀ env s, (connect env s).outcome = Except.ok () →
      Event.mkContract contractAddress ∈ (connect env s).events →
      isConnected (connect env s).session = true) ∧
    (∀ env s, isConnected s = true → isConnected (connect env s).session = true) := by
  refine ⟨?_, rfl, ?_, ?_⟩
  · intro s
    simp [isConnected, Option.isSome_iff_ne_none]
  · intro env s hok hmem
    unfold connect at hok hmem ⊢
    by_cases hw : env.hasWindow = false
    · simp [hw] at hmem
    · by_cases he : env.hasEthereum = false
      · simp [hw, he] at hmem
      · simp [hw, he] at hok hmem ⊢
        rcases ht : tryBody env s with ⟨o, s2, log⟩
        have hmk : Event.mkContract contractAddress ∈ (tryBody env s).2.2 →
            (tryBody env s).2.1.contract = some 1 := tryBody_mkContract env s
        rw [ht] at hmk
        simp at hmk
        rcases o with t | u
        · cases hshape : t.isErrorShaped <;> cases hap : t.alreadyPending <;>
            simp [ht, hshape, hap] at hok hmem ⊢
          all_goals simp [isConnected, hmk hmem]
        · simp [ht] at hmem ⊢
          simp [isConnected, hmk hmem]
  · intro env s hs
    simp only [isConnected] at hs ⊢
    rcases connect_contract_cases env s with h | h <;> rw [h]
    · exact hs
    · rfl

/-- Witness for the amended C2: false on the fresh Session, true after a
fully successful connect. -/
theorem isConnected_characterization_witness :
    isConnected Session.empty = false ∧
    isConnected (connect envHappy Session.empty).session = true :=
  ⟨isConnected_characterization.2.1,
   isConnected_characterization.2.2.1 envHappy Session.empty rfl (by decide)⟩

/-! ### Claim C3 -/

/-- Claim C3: when the `try` body of `connect()` throws a value `t`, the call
completes normally if and only if `t` is an `Error` whose message contains
"already pending" — this is the only swallowed failure (non-`Error` values
are normalized to the generic connection error, which is still a failure). -/
theorem connect_swallow_iff_already_pending (env : Env) (s : Session) (t : Thrown)
    (hw : env.hasWindow = true) (he : env.hasEthereum = true)
    (ht : (tryBody env s).1 = Except.error t) :
    ((connect env s).outcome = Except.ok () ↔
      (t.isErrorShaped && t.alreadyPending) = true) := by
  unfold connect
  simp only [hw, he, Bool.true_eq_false, if_false]
  rcases h2 : tryBody env s with ⟨o, s2, log⟩
  rw [h2] at ht
  simp only at ht
  subst ht
  cases hshape : t.isErrorShaped <;> cases hap : t.alreadyPending <;>
    simp [hshape, hap]

/-- Witness for C3 at a concrete already-pending execution. -/
theorem connect_swallow_iff_already_pending_witness :
    (connect envAlreadyPendingAtAccounts Session.empty).outcome = Except.ok () :=
  (connect_swallow_iff_already_pending envAlreadyPendingAtAccounts Session.empty
    (Thrown.js jsAlreadyPending) rfl rfl rfl).mpr rfl

/-! ### Claim C4 -/

/-- Claim C4: on the freshly created Session (all three handles absent),
every one of the seven operations fails with the not-connected error and
performs no contract/provider call (the flag recording whether the
underlying call happened is `false`), whatever the underlying call would
have returned. -/
theorem never_connected_ops_fail :
    ∀ (cN : Except JsValue Nat) (cS cW : Except JsValue String)
      (cNet : Except JsValue Network) (sub wt : Except JsValue Unit),
    getCounter Session.empty cN = (Except.error OpError.notConnected, false) ∧
    getOwner Session.empty cS = (Except.error OpError.notConnected, false) ∧
    getWalletAddress Session.empty cW = (Except.error OpError.notConnected, false) ∧
    getNetwork Session.empty cNet = (Except.error OpError.notConnected, false) ∧
    incrementCounter Session.empty sub wt = (Except.error OpError.notConnected, false) ∧
    decrementCounter Session.empty sub wt = (Except.error OpError.notConnected, false) ∧
    resetCounter Session.empty sub wt = (Except.error OpError.notConnected, false) := by
  intro cN cS cW cNet sub wt
  exact ⟨rfl, rfl, rfl, rfl, rfl, rfl, rfl⟩

/-! ### Claim C8 -/

/-- Claim C8: on a connected Session (contract and provider handles
populated), a failing underlying read in `getCounter()`/`getOwner()` is
translated to the contract-read error exactly when the thrown value is an
`Error` whose message contains "could not decode result data"; any other
thrown value is propagated to the caller unchanged. -/
theorem read_decode_error_translation (s : Session) (e : JsValue)
    (hc : s.contract.isSome = true) (hp : s.provider.isSome = true) :
    ((e.isError && e.msgDecodeFail) = true →
      getCounter s (Except.error e) = (Except.error OpError.contractRead, true) ∧
      getOwner s (Except.error e) = (Except.error OpError.contractRead, true)) ∧
    ((e.isError && e.msgDecodeFail) = false →
      getCounter s (Except.error e) = (Except.error (OpError.js e), true) ∧
      getOwner s (Except.error e) = (Except.error (OpError.js e), true)) := by
  rcases hcc : s.contract with _ | c
  · rw [hcc] at hc; simp at hc
  · rcases hpp : s.provider with _ | p
    · rw [hpp] at hp; simp at hp
    · constructor <;> intro hcond <;>
        simp [getCounter, getOwner, hcc, hpp, hcond]

/-- The underlying decode-failure `Error` of the mocked scenario. -/
def jsDecodeFailed : JsValue := ⟨true, false, true, none⟩

/-- Witness for C8 at a concrete connected Session and decode failure. -/
theorem read_decode_error_translation_witness :
    getCounter ⟨some 1, some 1, some 1⟩ (Except.error jsDecodeFailed) =
      (Except.error OpError.contractRead, true) :=
  ((read_decode_error_translation ⟨some 1, some 1, some 1⟩ jsDecodeFailed
    rfl rfl).1 rfl).1

/-! ### Claim C10 -/

/-- Claim C10: the connectedness guard is asymmetric.  In a Session state
with the contract handle populated but the provider handle absent,
`getCounter()` (which guards on both, lines 120-122) fails with the
not-connected error and performs no call, while `incrementCounter()`,
`decrementCounter()`, `resetCounter()` and `getOwner()` (which guard only
on the contract handle) all proceed to the underlying contract call. -/
theorem asymmetric_connected_checks :
    ∀ (cN : Except JsValue Nat) (cS : Except JsValue String)
      (sub wt : Except JsValue Unit),
    getCounter ⟨some 1, none, none⟩ cN = (Except.error OpError.notConnected, false) ∧
    (incrementCounter ⟨some 1, none, none⟩ sub wt).2 = true ∧
    (decrementCounter ⟨some 1, none, none⟩ sub wt).2 = true ∧
    (resetCounter ⟨some 1, none, none⟩ sub wt).2 = true ∧
    (getOwner ⟨some 1, none, none⟩ cS).2 = true := by
  intro cN cS sub wt
  refine ⟨rfl, ?_, ?_, ?_, ?_⟩
  · rcases sub with e | u
    · rfl
    · rcases wt with e | u <;> rfl
  · rcases sub with e | u
    · rfl
    · rcases wt with e | u <;> rfl
  · rcases sub with e | u
    · rfl
    · rcases wt with e | u <;> rfl
  · rcases cS with e | v
    · by_cases hd : (e.isError && e.msgDecodeFail) = true <;>
        simp [getOwner, hd]
    · rfl

/-! ### Helper lemmas: lifting the `try` body through the `catch` block -/

theorem connect_events (env : Env) (s : Session)
    (hw : env.hasWindow = true) (he : env.hasEthereum = true) :
    (connect env s).events = (tryBody env s).2.2 := by
  unfold connect
  simp only [hw, he, Bool.true_eq_false, if_false]
  rcases ht : tryBody env s with ⟨o, s2, log⟩
  rcases o with t | u
  · cases hshape : t.isErrorShaped <;> cases hap : t.alreadyPending <;>
      simp [ht, hshape, hap]
  · simp [ht]

theorem connect_session_eq (env : Env) (s : Session)
    (hw : env.hasWindow = true) (he : env.hasEthereum = true) :
    (connect env s).session = (tryBody env s).2.1 := by
  unfold connect
  simp only [hw, he, Bool.true_eq_false, if_false]
  rcases ht : tryBody env s with ⟨o, s2, log⟩
  rcases o with t | u
  · cases hshape : t.isErrorShaped <;> cases hap : t.alreadyPending <;>
      simp [ht, hshape, hap]
  · simp [ht]

theorem connect_of_tryBody_error (env : Env) (s : Session) (t : Thrown)
    (hw : env.hasWindow = true) (he : env.hasEthereum = true)
    (ht : (tryBody env s).1 = Except.error t) :
    (connect env s).outcome =
      (if t.isErrorShaped && t.alreadyPending then Except.ok ()
       else if t.isErrorShaped then Except.error t.toConnError
       else Except.error ConnError.connectFailed) := by
  unfold connect
  simp only [hw, he, Bool.true_eq_false, if_false]
  rcases h2 : tryBody env s with ⟨o, s2, log⟩
  rw [h2] at ht
  simp only at ht
  subst ht
  cases hshape : t.isErrorShaped <;> cases hap : t.alreadyPending <;>
    simp [hshape, hap]

/-- The re-derivation of the provider handle at line 78 is performed in
every execution that enters the post-switch block. -/
theorem afterSwitch_deriveProvider (env : Env) (s : Session) (net0 : Network) :
    Event.deriveProvider 2 ∈ (afterSwitch env s net0).2.2 := by
  unfold afterSwitch
  rcases h2 : env.getSigner2 with e | u
  · simp
  · rcases h3 : env.getNetwork2 with e | n2 <;> simp

/-- The byte-code check and contract construction never touch the provider
or signer handle fields. -/
theorem finishConnect_provider_signer (env : Env) (s : Session) (net0 : Network) :
    (finishConnect env s net0).2.1.provider = s.provider ∧
    (finishConnect env s net0).2.1.signer = s.signer := by
  unfold finishConnect
  rcases hg : env.getCode with e | c
  · exact ⟨rfl, rfl⟩
  · by_cases hc : c = "0x" <;> simp [hc]

/-- Lines 94-97: the empty-code sentinel makes the `try` body throw the
contract-not-found error, carrying the STALE network bindings `net0`. -/
theorem finishConnect_notFound (env : Env) (s : Session) (net0 : Network)
    (hcode : env.getCode = Except.ok "0x") :
    (finishConnect env s net0).1 =
      Except.error (Thrown.contractNotFound contractAddress net0) := by
  unfold finishConnect
  rw [hcode]
  simp

/-- Under the standard preconditions, `tryBody` reduces to the chain-switch
block operating on the Session whose first-generation handles are set. -/
theorem tryBody_eq_switchBlock (env : Env) (s : Session) (net0 : Network)
    (ha : env.reqAccounts = Except.ok ()) (hg : env.getSigner1 = Except.ok ())
    (hn : env.getNetwork1 = Except.ok net0)
    (hne : net0.chainId ≠ SEPOLIA_CHAIN_ID_DECIMAL) :
    tryBody env s =
      ((switchBlock env { s with provider := some 1, signer := some 1 } net0).1,
       (switchBlock env { s with provider := some 1, signer := some 1 } net0).2.1,
       [Event.reqAccounts, Event.deriveProvider 1, Event.deriveSigner 1,
        Event.fetchNetwork net0] ++
         (switchBlock env { s with provider := some 1, signer := some 1 } net0).2.2) := by
  unfold tryBody
  rw [ha, hg, hn]
  simp [hne]

/-- Under the standard preconditions with the provider already on the target
chain, `tryBody` reduces directly to the byte-code check. -/
theorem tryBody_eq_finishConnect (env : Env) (s : Session) (net0 : Network)
    (ha : env.reqAccounts = Except.ok ()) (hg : env.getSigner1 = Except.ok ())
    (hn : env.getNetwork1 = Except.ok net0)
    (heq : net0.chainId = SEPOLIA_CHAIN_ID_DECIMAL) :
    tryBody env s =
      ((finishConnect env { s with provider := some 1, signer := some 1 } net0).1,
       (finishConnect env { s with provider := some 1, signer := some 1 } net0).2.1,
       [Event.reqAccounts, Event.deriveProvider 1, Event.deriveSigner 1,
        Event.fetchNetwork net0] ++
         (finishConnect env { s with provider := some 1, signer := some 1 } net0).2.2) := by
  unfold tryBody
  rw [ha, hg, hn]
  simp [heq]

/-! ### Claim C7 -/

/-- Claim C7: in every execution of `connect()` whose initially fetched
network identity already reports chain 11155111, no
`wallet_switchEthereumChain` and no `wallet_addEthereumChain` request is
issued (whatever the outcomes of the remaining steps). -/
theorem no_switch_requests_when_already_sepolia (env : Env) (s : Session) (net0 : Network)
    (hn : env.getNetwork1 = Except.ok net0)
    (hid : net0.chainId = SEPOLIA_CHAIN_ID_DECIMAL) :
    (∀ c, Event.reqSwitch c ∉ (connect env s).events) ∧
    (∀ p, Event.reqAddChain p ∉ (connect env s).events) := by
  have key : (∀ c, Event.reqSwitch c ∉ (tryBody env s).2.2) ∧
      (∀ p, Event.reqAddChain p ∉ (tryBody env s).2.2) := by
    unfold tryBody finishConnect
    rcases h1 : env.reqAccounts with e | u
    · simp
    · rcases h2 : env.getSigner1 with e | u
      · simp
      · rcases hg : env.getCode with e | c
        · simp [hn, hid, hg]
        · by_cases hc : c = "0x" <;> simp [hn, hid, hg, hc]
  have hev : (connect env s).events = [] ∨
      (connect env s).events = (tryBody env s).2.2 := by
    by_cases hw : env.hasWindow = true
    · by_cases he : env.hasEthereum = true
      · exact Or.inr (connect_events env s hw he)
      · left
        unfold connect
        simp [hw, eq_false_of_ne_true he]
    · left
      unfold connect
      simp [eq_false_of_ne_true hw]
  constructor
  · intro c
    rcases hev with h | h
    · simp [h]
    · rw [h]; exact key.1 c
  · intro p
    rcases hev with h | h
    · simp [h]
    · rw [h]; exact key.2 p

/-- Witness for C7 at a concrete execution already on Sepolia. -/
theorem no_switch_requests_when_already_sepolia_witness :
    Event.reqSwitch SEPOLIA_CHAIN_ID ∉ (connect envHappy Session.empty).events ∧
    Event.reqAddChain sepoliaAddParams ∉ (connect envHappy Session.empty).events :=
  ⟨(no_switch_requests_when_already_sepolia envHappy Session.empty
      ⟨"sepolia", 11155111⟩ rfl rfl).1 SEPOLIA_CHAIN_ID,
   (no_switch_requests_when_already_sepolia envHappy Session.empty
      ⟨"sepolia", 11155111⟩ rfl rfl).2 sepoliaAddParams⟩

/-! ### Claim C5 -/

/-- An `Error` with provider code 4902 ("chain unknown, must be added"). -/
def jsUnknownChain : JsValue := ⟨true, false, false, some 4902⟩

/-- An `Error` with a non-4902 code (e.g. the user rejected the prompt). -/
def jsUserRejected : JsValue := ⟨true, false, false, some 4001⟩

/-- A non-4902 switch `Error` whose message contains "already pending". -/
def jsSwitchAlreadyPending : JsValue := ⟨true, true, false, some 4001⟩

/-- Environment on the wrong chain whose switch fails with code 4902, after
which the add-chain request succeeds. -/
def envSwitch4902 : Env :=
  { hasWindow := true, hasEthereum := true
    reqAccounts := .ok (), getSigner1 := .ok ()
    getNetwork1 := .ok ⟨"mainnet", 1⟩
    switchOutcome := .error jsUnknownChain, addOutcome := .ok ()
    getSigner2 := .ok (), getNetwork2 := .ok ⟨"sepolia", 11155111⟩
    getCode := .ok "0x6080" }

/-- Environment on the wrong chain whose switch fails with a non-4902
`Error` (user rejection). -/
def envSwitchRejected : Env :=
  { envSwitch4902 with switchOutcome := .error jsUserRejected }

/-- Environment on the wrong chain whose switch fails with a non-4902
`Error` whose message contains "already pending". -/
def envSwitchSwallowed : Env :=
  { envSwitch4902 with switchOutcome := .error jsSwitchAlreadyPending }

/-- Claim C5 as stated is false: a chain-switch failure whose code is NOT
4902 is not always propagated to the caller unchanged — when the rethrown
switch `Error`'s message contains "already pending", the outer catch of
lines 110-112 swallows it and `connect()` completes normally. -/
theorem switch_error_already_pending_swallowed :
    envSwitchSwallowed.switchOutcome = Except.error jsSwitchAlreadyPending ∧
    jsSwitchAlreadyPending.code ≠ some 4902 ∧
    (connect envSwitchSwallowed Session.empty).outcome = Except.ok () :=
  ⟨rfl, by decide, rfl⟩

/-- Claim C5 (amended): if the chain-switch request fails with code 4902,
`connect()` issues a `wallet_addEthereumChain` request with the fixed
Sepolia descriptor (name "Sepolia", native currency ETH/ETH/18, the fixed
RPC and explorer URLs) and, when that succeeds, proceeds to re-derive the
provider handle; if the switch fails with any other error, the rethrown
value is subject to the connect-level normalization: an `Error` containing
"already pending" is treated as success, a non-`Error` value is replaced by
the generic connection failure, and any other `Error` is propagated to the
caller unchanged. -/
theorem switch_error_handling (env : Env) (s : Session) (net0 : Network) (se : JsValue)
    (hw : env.hasWindow = true) (he : env.hasEthereum = true)
    (ha : env.reqAccounts = Except.ok ()) (hg : env.getSigner1 = Except.ok ())
    (hn : env.getNetwork1 = Except.ok net0)
    (hne : net0.chainId ≠ SEPOLIA_CHAIN_ID_DECIMAL)
    (hsw : env.switchOutcome = Except.error se) :
    (se.code = some 4902 →
      Event.reqAddChain sepoliaAddParams ∈ (connect env s).events ∧
      (env.addOutcome = Except.ok () →
        Event.deriveProvider 2 ∈ (connect env s).events)) ∧
    (se.code ≠ some 4902 → se.isError = true → se.msgAlreadyPending = false →
      (connect env s).outcome = Except.error (ConnError.js se)) ∧
    (se.code ≠ some 4902 → se.isError = true → se.msgAlreadyPending = true →
      (connect env s).outcome = Except.ok ()) ∧
    (se.code ≠ some 4902 → se.isError = false →
      (connect env s).outcome = Except.error ConnError.connectFailed) := by
  have htb := tryBody_eq_switchBlock env s net0 ha hg hn hne
  have hev := connect_events env s hw he
  refine ⟨?_, ?_, ?_, ?_⟩
  · intro hc
    rw [hev, htb]
    constructor
    · unfold switchBlock
      rw [hsw]
      rcases hao : env.addOutcome with e | u <;> simp [hc, hao]
    · intro haok
      unfold switchBlock
      rw [hsw]
      simp [hc, haok]
      exact afterSwitch_deriveProvider env _ net0
  · intro hc hE hAP
    have ht1 : (tryBody env s).1 = Except.error (Thrown.js se) := by
      rw [htb]
      unfold switchBlock
      rw [hsw]
      simp [hc]
    rw [connect_of_tryBody_error env s (Thrown.js se) hw he ht1]
    simp [Thrown.isErrorShaped, Thrown.alreadyPending, Thrown.toConnError, hE, hAP]
  · intro hc hE hAP
    have ht1 : (tryBody env s).1 = Except.error (Thrown.js se) := by
      rw [htb]
      unfold switchBlock
      rw [hsw]
      simp [hc]
    rw [connect_of_tryBody_error env s (Thrown.js se) hw he ht1]
    simp [Thrown.isErrorShaped, Thrown.alreadyPending, hE, hAP]
  · intro hc hE
    have ht1 : (tryBody env s).1 = Except.error (Thrown.js se) := by
      rw [htb]
      unfold switchBlock
      rw [hsw]
      simp [hc]
    rw [connect_of_tryBody_error env s (Thrown.js se) hw he ht1]
    simp [Thrown.isErrorShaped, Thrown.alreadyPending, hE]

/-- Witness for the amended C5: the 4902 fallback issues the Sepolia
add-chain request, and a user-rejection switch error propagates unchanged. -/
theorem switch_error_handling_witness :
    Event.reqAddChain sepoliaAddParams ∈ (connect envSwitch4902 Session.empty).events ∧
    (connect envSwitchRejected Session.empty).outcome =
      Except.error (ConnError.js jsUserRejected) :=
  ⟨((switch_error_handling envSwitch4902 Session.empty ⟨"mainnet", 1⟩ jsUnknownChain
      rfl rfl rfl rfl rfl (by decide) rfl).1 rfl).1,
   (switch_error_handling envSwitchRejected Session.empty ⟨"mainnet", 1⟩ jsUserRejected
      rfl rfl rfl rfl rfl (by decide) rfl).2.1 (by decide) rfl rfl⟩

/-! ### Claim C6 -/

/-- Environment on the wrong chain whose switch request is accepted; the
provider then honestly reports the target chain on the re-fetch. -/
def envSwitchAccepted : Env :=
  { hasWindow := true, hasEthereum := true
    reqAccounts := .ok (), getSigner1 := .ok ()
    getNetwork1 := .ok ⟨"mainnet", 1⟩
    switchOutcome := .ok (), addOutcome := .ok ()
    getSigner2 := .ok (), getNetwork2 := .ok ⟨"sepolia", 11155111⟩
    getCode := .ok "0x6080" }

/-- Claim C6: in every execution in which a chain switch (or 4902-triggered
add-chain) succeeds, `connect()` re-derives the provider and signer handles
(generation 2) from the injected provider and re-fetches the network
identity from the new handle; under the EIP-1193 switch semantics — a
successful `wallet_switchEthereumChain`/`wallet_addEthereumChain` leaves the
wallet on the requested chain, the `honest` hypothesis — that re-fetched
identity reports chain 11155111. -/
theorem connect_rederives_and_refetches_after_switch (env : Env) (s : Session)
    (net0 n2 : Network)
    (hw : env.hasWindow = true) (he : env.hasEthereum = true)
    (ha : env.reqAccounts = Except.ok ()) (hg : env.getSigner1 = Except.ok ())
    (hn : env.getNetwork1 = Except.ok net0)
    (hne : net0.chainId ≠ SEPOLIA_CHAIN_ID_DECIMAL)
    (hsw : env.switchOutcome = Except.ok () ∨
      ∃ se, env.switchOutcome = Except.error se ∧ se.code = some 4902 ∧
        env.addOutcome = Except.ok ())
    (hg2 : env.getSigner2 = Except.ok ())
    (hn2 : env.getNetwork2 = Except.ok n2)
    (honest : n2.chainId = SEPOLIA_CHAIN_ID_DECIMAL) :
    Event.deriveProvider 2 ∈ (connect env s).events ∧
    Event.deriveSigner 2 ∈ (connect env s).events ∧
    Event.fetchNetwork n2 ∈ (connect env s).events ∧
    n2.chainId = 11155111 ∧
    (connect env s).session.provider = some 2 ∧
    (connect env s).session.signer = some 2 := by
  have htb := tryBody_eq_switchBlock env s net0 ha hg hn hne
  have hev := connect_events env s hw he
  have hses := connect_session_eq env s hw he
  have hAS : afterSwitch env { s with provider := some 1, signer := some 1 } net0 =
      ((finishConnect env { s with provider := some 2, signer := some 2 } net0).1,
       (finishConnect env { s with provider := some 2, signer := some 2 } net0).2.1,
       Event.deriveProvider 2 :: Event.deriveSigner 2 :: Event.fetchNetwork n2 ::
         (finishConnect env { s with provider := some 2, signer := some 2 } net0).2.2) := by
    unfold afterSwitch
    rw [hg2, hn2]
  have hps := finishConnect_provider_signer env
    { s with provider := some 2, signer := some 2 } net0
  have hsb : switchBlock env { s with provider := some 1, signer := some 1 } net0 =
      ((finishConnect env { s with provider := some 2, signer := some 2 } net0).1,
       (finishConnect env { s with provider := some 2, signer := some 2 } net0).2.1,
       Event.reqSwitch SEPOLIA_CHAIN_ID ::
         ((if (env.switchOutcome matches Except.error _) then
            [Event.reqAddChain sepoliaAddParams] else []) ++
          (Event.deriveProvider 2 :: Event.deriveSigner 2 :: Event.fetchNetwork n2 ::
            (finishConnect env { s with provider := some 2, signer := some 2 } net0).2.2))) := by
    rcases hsw with hok | ⟨se, hse, hcode, haok⟩
    · unfold switchBlock
      rw [hok, hAS]
      simp
    · unfold switchBlock
      rw [hse, hAS]
      simp [hcode, haok]
  rw [hev, hses, htb]
  simp only [hsb]
  refine ⟨by simp, by simp, by simp, honest, ?_, ?_⟩
  · simp [hps.1]
  · simp [hps.2]

/-- Witness for C6 at a concrete accepted-switch execution. -/
theorem connect_rederives_and_refetches_after_switch_witness :
    Event.fetchNetwork ⟨"sepolia", 11155111⟩ ∈
      (connect envSwitchAccepted Session.empty).events ∧
    (connect envSwitchAccepted Session.empty).session.provider = some 2 :=
  ⟨(connect_rederives_and_refetches_after_switch envSwitchAccepted Session.empty
      ⟨"mainnet", 1⟩ ⟨"sepolia", 11155111⟩ rfl rfl rfl rfl rfl (by decide)
      (Or.inl rfl) rfl rfl rfl).2.2.1,
   (connect_rederives_and_refetches_after_switch envSwitchAccepted Session.empty
      ⟨"mainnet", 1⟩ ⟨"sepolia", 11155111⟩ rfl rfl rfl rfl rfl (by decide)
      (Or.inl rfl) rfl rfl rfl).2.2.2.2.1⟩

/-! ### Claim C9 -/

/-- Environment that starts on mainnet, successfully switches to Sepolia,
and then finds no code at the configured address. -/
def envStaleNetwork : Env :=
  { hasWindow := true, hasEthereum := true
    reqAccounts := .ok (), getSigner1 := .ok ()
    getNetwork1 := .ok ⟨"mainnet", 1⟩
    switchOutcome := .ok (), addOutcome := .ok ()
    getSigner2 := .ok (), getNetwork2 := .ok ⟨"sepolia", 11155111⟩
    getCode := .ok "0x" }

/-- Claim C9 as stated is false: after a successful chain switch the
now-current network identity is Sepolia (chain 11155111, re-fetched at line
81), yet the contract-not-found error of line 95 interpolates the STALE
`network`/`chainId` bindings from the pre-switch fetch, so it carries chain
1 ("mainnet"), not the now-current identity. -/
theorem contract_not_found_reports_stale_network :
    (connect envStaleNetwork Session.empty).outcome =
      Except.error (ConnError.contractNotFound contractAddress ⟨"mainnet", 1⟩) ∧
    Event.fetchNetwork ⟨"sepolia", 11155111⟩ ∈
      (connect envStaleNetwork Session.empty).events ∧
    (1 : Nat) ≠ 11155111 :=
  ⟨rfl, by decide, by decide⟩

/-- Claim C9 (amended): when the byte-code query returns the empty-code
sentinel `'0x'`, `connect()` fails with a contract-not-found error carrying
the configured contract address and the network identity from the INITIAL
fetch (line 36) — which equals the now-current identity only when no chain
switch occurred. -/
theorem contract_not_found_carries_initial_network (env : Env) (s : Session)
    (net0 : Network)
    (hw : env.hasWindow = true) (he : env.hasEthereum = true)
    (ha : env.reqAccounts = Except.ok ()) (hg : env.getSigner1 = Except.ok ())
    (hn : env.getNetwork1 = Except.ok net0)
    (hpath : net0.chainId = SEPOLIA_CHAIN_ID_DECIMAL ∨
      (net0.chainId ≠ SEPOLIA_CHAIN_ID_DECIMAL ∧
       (env.switchOutcome = Except.ok () ∨
         ∃ se, env.switchOutcome = Except.error se ∧ se.code = some 4902 ∧
           env.addOutcome = Except.ok ()) ∧
       env.getSigner2 = Except.ok () ∧ ∃ n2, env.getNetwork2 = Except.ok n2))
    (hcode : env.getCode = Except.ok "0x") :
    (connect env s).outcome =
      Except.error (ConnError.contractNotFound contractAddress net0) := by
  have ht1 : (tryBody env s).1 =
      Except.error (Thrown.contractNotFound contractAddress net0) := by
    rcases hpath with heq | ⟨hne, hsw, hg2, n2, hn2⟩
    · rw [tryBody_eq_finishConnect env s net0 ha hg hn heq]
      exact finishConnect_notFound env _ net0 hcode
    · rw [tryBody_eq_switchBlock env s net0 ha hg hn hne]
      have hAS : (afterSwitch env { s with provider := some 1, signer := some 1 } net0).1 =
          Except.error (Thrown.contractNotFound contractAddress net0) := by
        unfold afterSwitch
        rw [hg2, hn2]
        exact finishConnect_notFound env _ net0 hcode
      rcases hsw with hok | ⟨se, hse, hc4902, haok⟩
      · unfold switchBlock
        rw [hok]
        exact hAS
      · unfold switchBlock
        rw [hse]
        simp only [hc4902, if_pos, haok]
        exact hAS
  rw [connect_of_tryBody_error env s (Thrown.contractNotFound contractAddress net0)
    hw he ht1]
  simp [Thrown.isErrorShaped, Thrown.alreadyPending, Thrown.toConnError]

/-- Witness for the amended C9 at a concrete post-switch execution. -/
theorem contract_not_found_carries_initial_network_witness :
    (connect envStaleNetwork Session.empty).outcome =
      Except.error (ConnError.contractNotFound contractAddress ⟨"mainnet", 1⟩) :=
  contract_not_found_carries_initial_network envStaleNetwork Session.empty
    ⟨"mainnet", 1⟩ rfl rfl rfl rfl rfl
    (Or.inr ⟨by decide, Or.inl rfl, rfl, ⟨⟨"sepolia", 11155111⟩, rfl⟩⟩) rfl

end CounterApp
